import Mathlib

/-!
# Key manager: rotation on read and usage accounting

A shallow embedding of `src/index.js` (the Express service) together with the
`rotate` handler of its serverless copy `src/api/index.js`.

Modelling conventions.

* The two process-wide objects `keys` and `usage` are association lists keyed
  by the provider name, in property order; `lookup` is the own-property read
  `tbl[k]` (`none` stands for `undefined`), `assign` is the write `tbl[k] = v`.
  Names inherited from `Object.prototype` are not modelled.
* `process.env` is a function from variable names to optional strings.
* Every request is evaluated at one clock reading `now`, in milliseconds since
  the epoch. An ISO-8601 string produced by `toISOString()` is represented by
  the instant it denotes, so parsing it back is the identity.
* A usage count is a JavaScript number, an IEEE-754 double. The amounts taken
  from a request body are integer literals, so every count is an integer-valued
  double or a non-finite value (`JsNum`); `+` rounds the exact sum to the
  nearest double, ties to even, and overflows to an infinity.
* An uncaught exception is the response `Response.fault`; the state returned
  next to it holds the writes made before the throw.
* A run of the service is a list of requests, each with its clock reading,
  served one after the other (`serveAll`): handlers are synchronous.
-/

namespace KeyManager

set_option exponentiation.threshold 1100

/-! ## Tables -/

/-- Own-property read `tbl[k]`; `none` is `undefined`. -/
def lookup {α : Type} (tbl : List (String × α)) (k : String) : Option α :=
  match tbl with
  | [] => none
  | (k', v) :: rest => if k' = k then some v else lookup rest k

/-- Property write `tbl[k] = v`: replaces in place, or appends a new property. -/
def assign {α : Type} (tbl : List (String × α)) (k : String) (v : α) : List (String × α) :=
  match tbl with
  | [] => [(k, v)]
  | (k', v') :: rest => if k' = k then (k', v) :: rest else (k', v') :: assign rest k v

/-! ## Numbers -/

/-- A JavaScript number whose value is an integer, or a non-finite value.
`fin n` is the double of value `n`. -/
inductive JsNum where
  | fin (n : Int)
  | posInf
  | negInf
  | nan
deriving DecidableEq, Repr

/-- How many times `m` must be halved to fall below `2 ^ 53`: the binary
exponent of the last place of the 53-bit significand of `m`. -/
def shiftOf (fuel m : Nat) : Nat :=
  match fuel with
  | 0 => 0
  | f + 1 => if m < 2 ^ 53 then 0 else shiftOf f (m / 2) + 1

/-- Rounding of a magnitude to 53 significant bits, to nearest, ties to even. -/
def roundMagnitude (m : Nat) : Nat :=
  if m < 2 ^ 53 then m
  else
    let shift := shiftOf 1024 m
    let q := m / 2 ^ shift
    let r := m % 2 ^ shift
    let half := 2 ^ (shift - 1)
    if half < r ∨ (r = half ∧ q % 2 = 1) then (q + 1) * 2 ^ shift else q * 2 ^ shift

/-- The double nearest to the integer `n`; a rounded magnitude of `2 ^ 1024`
or more is an infinity. This is also how `JSON.parse` reads an integer
literal. -/
def toDouble (n : Int) : JsNum :=
  let r := roundMagnitude n.natAbs
  if 2 ^ 1024 ≤ r then (if n < 0 then .negInf else .posInf)
  else if n < 0 then .fin (-(r : Int)) else .fin r

/-- Addition of doubles: the exact sum, rounded. -/
def JsNum.add (x y : JsNum) : JsNum :=
  match x, y with
  | .fin a, .fin b => toDouble (a + b)
  | .nan, _ => .nan
  | _, .nan => .nan
  | .posInf, .negInf => .nan
  | .negInf, .posInf => .nan
  | .posInf, _ => .posInf
  | _, .posInf => .posInf
  | .negInf, _ => .negInf
  | _, .negInf => .negInf

instance : Add JsNum := ⟨JsNum.add⟩

/-! ## Data model -/

/-- One entry of `usage`: `count`, and the optional `lastRotation` (a number of
milliseconds) and `resetAt` (an ISO string, kept as the instant it denotes). -/
structure UsageRecord where
  count : JsNum
  lastRotation : Option Nat
  resetAt : Option Nat
deriving DecidableEq, Repr

/-- The mutable state of the process: the `keys` and `usage` objects. -/
structure State where
  keys : List (String × String)
  usage : List (String × UsageRecord)
deriving DecidableEq, Repr

/-- The environment `process.env`. -/
abbrev Env := String → Option String

/-- Exceptions the handlers can raise. -/
inductive Fault where
  | typeError
  | rangeError
deriving DecidableEq, Repr

/-- Body of `POST /keys/:provider/usage`; a missing field is `none`, and
`tokens` is the integer literal written in the body. -/
structure UsageBody where
  tokens : Option Int
  droplet : Option String
deriving DecidableEq, Repr

/-- What a handler sends back. `notFound` is the 404 answer
`Provider not found`; in the other payloads a `next` of `none` is the text
`not scheduled`. In `health`, `providers` is `Object.keys(keys)` and
`totalUsage` the object of the four counts. -/
inductive Response where
  | notFound
  | credential (provider : String) (key : Option String) (last : Nat) (next : Option Nat)
  | usageRecorded (provider : String) (totalUsage : JsNum) (droplet : Option String)
  | usageStats (provider : String) (totalUsage : JsNum) (lastRotation : Nat)
      (nextRotation : Option Nat)
  | rotated (provider : String) (newKey : String) (rotatedAt : Nat)
  | rotatedPlain (provider : String) (rotatedAt : Nat)
  | health (providers : List String) (totalUsage : List (String × JsNum))
  | fault (f : Fault)
deriving DecidableEq, Repr

/-! ## Start-up -/

/-- The expression `v || d` on an optional string. -/
def orElse (v : Option String) (d : String) : String :=
  match v with
  | some s => if s = "" then d else s
  | none => d

/-- Truthiness of an optional string: defined and not empty. -/
def truthy (v : Option String) : Bool :=
  match v with
  | some s => decide (s ≠ "")
  | none => false

/-- `getNextRotation`: five hours after the clock reading. -/
def getNextRotation (now : Nat) : Nat :=
  now + 5 * 60 * 60 * 1000

/-- The `keys` literal. `zaiFallback` is the credential hard-coded in the
source as the fallback for `ZAI_KEY`; it is a non-empty string. -/
def initKeys (env : Env) (zaiFallback : String) : List (String × String) :=
  [ ("zai", orElse (env "ZAI_KEY") zaiFallback),
    ("anthropic", orElse (env "ANTHROPIC_KEY") ""),
    ("google", orElse (env "GOOGLE_KEY") ""),
    ("openai", orElse (env "OPENAI_KEY") "") ]

/-- The `usage` literal, evaluated at start-up time `t0`. -/
def initUsage (t0 : Nat) : List (String × UsageRecord) :=
  [ ("zai", { count := .fin 0, lastRotation := some t0, resetAt := some (getNextRotation t0) }),
    ("anthropic", { count := .fin 0, lastRotation := some t0, resetAt := none }),
    ("google", { count := .fin 0, lastRotation := none, resetAt := none }),
    ("openai", { count := .fin 0, lastRotation := none, resetAt := none }) ]

/-- The state right after module load. -/
def initState (env : Env) (zaiFallback : String) (t0 : Nat) : State :=
  { keys := initKeys env zaiFallback, usage := initUsage t0 }

/-! ## Rotation -/

/-- ASCII upper-casing, the effect of `toUpperCase()` on provider names. -/
def toUpperCase (s : String) : String :=
  String.mk (s.data.map Char.toUpper)

/-- The name of the environment variable holding the backup key. -/
def backupVar (provider : String) : String :=
  toUpperCase provider ++ "_BACKUP_KEY"

/-- `shouldRotate`: only `zai` is ever due, once the clock has reached
`usage.zai.resetAt`. A missing `resetAt` parses to an invalid date, against
which every comparison is false. -/
def shouldRotate (s : State) (provider : String) (now : Nat) : Except Fault Bool :=
  if provider = "zai" then
    match lookup s.usage "zai" with
    | none => .error .typeError
    | some u =>
      match u.resetAt with
      | some resetTime => .ok (decide (resetTime ≤ now))
      | none => .ok false
  else .ok false

/-- The write `usage[provider].field = ...`, a `TypeError` when
`usage[provider]` is `undefined`. -/
def modifyUsage (s : State) (provider : String) (f : UsageRecord → UsageRecord) :
    Except Fault State :=
  match lookup s.usage provider with
  | none => .error .typeError
  | some u => .ok { s with usage := assign s.usage provider (f u) }

/-- `rotateKey`: returns `keys[provider]` after swapping in the backup key
when the provider is due and a backup is configured. -/
def rotateKey (env : Env) (s : State) (provider : String) (now : Nat) :
    Except Fault (Option String) × State :=
  match shouldRotate s provider now with
  | .error f => (.error f, s)
  | .ok false => (.ok (lookup s.keys provider), s)
  | .ok true =>
    if truthy (env (backupVar provider)) then
      let backupKey := (env (backupVar provider)).getD ""
      let s1 : State := { s with keys := assign s.keys provider backupKey }
      match modifyUsage s1 provider (fun u => { u with lastRotation := some now }) with
      | .error f => (.error f, s1)
      | .ok s2 =>
        if provider = "zai" then
          match modifyUsage s2 provider
              (fun u => { u with resetAt := some (getNextRotation now) }) with
          | .error f => (.error f, s2)
          | .ok s3 => (.ok (lookup s3.keys provider), s3)
        else (.ok (lookup s2.keys provider), s2)
    else (.ok (lookup s.keys provider), s)

/-! ## Handlers of `src/index.js` -/

/-- Handler of `GET /keys/:provider`. -/
def getCredential (env : Env) (s : State) (provider : String) (now : Nat) :
    Response × State :=
  if truthy (lookup s.keys provider) then
    match rotateKey env s provider now with
    | (.error f, s') => (.fault f, s')
    | (.ok key, s') =>
      match lookup s'.usage provider with
      | none => (.fault .typeError, s')
      | some u =>
        match u.lastRotation with
        | none => (.fault .rangeError, s')
        | some last => (.credential provider key last u.resetAt, s')
  else (.notFound, s)

/-- The expression `tokens || 0`, on the parsed body: a missing field and
zero are replaced by `0`. -/
def tokensOrZero (tokens : Option Int) : JsNum :=
  match tokens with
  | some n => if n = 0 then .fin 0 else toDouble n
  | none => .fin 0

/-- Handler of `POST /keys/:provider/usage`. -/
def recordUsage (s : State) (provider : String) (body : UsageBody) : Response × State :=
  match lookup s.usage provider with
  | none => (.notFound, s)
  | some u =>
    let u' : UsageRecord := { u with count := u.count + tokensOrZero body.tokens }
    (.usageRecorded provider u'.count body.droplet,
      { s with usage := assign s.usage provider u' })

/-- A sequence of `POST /keys/:provider/usage` calls for one provider, in
order; the state after the last one. -/
def recordAll (s : State) (provider : String) (calls : List UsageBody) : State :=
  calls.foldl (fun st body => (recordUsage st provider body).2) s

/-- Handler of `GET /keys/:provider/usage`. -/
def usageStats (s : State) (provider : String) : Response × State :=
  match lookup s.usage provider with
  | none => (.notFound, s)
  | some u =>
    match u.lastRotation with
    | none => (.fault .rangeError, s)
    | some last => (.usageStats provider u.count last u.resetAt, s)

/-- The string method `substring(a, b)` for `a ≤ b`. -/
def substring (s : String) (a b : Nat) : String :=
  String.mk ((s.data.take b).drop a)

/-- Handler of `POST /keys/:provider/rotate` in `src/index.js`: no guard on
the provider; `newKey.substring` throws on `undefined`. -/
def rotateNow (env : Env) (s : State) (provider : String) (now : Nat) :
    Response × State :=
  match rotateKey env s provider now with
  | (.error f, s') => (.fault f, s')
  | (.ok none, s') => (.fault .typeError, s')
  | (.ok (some newKey), s') => (.rotated provider (substring newKey 0 20 ++ "...") now, s')

/-- Handler of `GET /health`. -/
def health (s : State) : Response :=
  match lookup s.usage "zai", lookup s.usage "anthropic", lookup s.usage "google",
      lookup s.usage "openai" with
  | some z, some a, some g, some o =>
    .health (s.keys.map Prod.fst)
      [("zai", z.count), ("anthropic", a.count), ("google", g.count), ("openai", o.count)]
  | _, _, _, _ => .fault .typeError

/-! ## The `rotate` handler of `src/api/index.js` -/

/-- Handler of `POST /keys/:provider/rotate` in the serverless copy: it checks
`keys[provider]` first and its payload has no `newKey`. -/
def rotateNowApi (env : Env) (s : State) (provider : String) (now : Nat) :
    Response × State :=
  if truthy (lookup s.keys provider) then
    match rotateKey env s provider now with
    | (.error f, s') => (.fault f, s')
    | (.ok _, s') => (.rotatedPlain provider now, s')
  else (.notFound, s)

/-! ## Runs of the service -/

/-- A request to one of the routes of `src/index.js` that touch the tables. -/
inductive Request where
  | getKey (provider : String)
  | reportUsage (provider : String) (body : UsageBody)
  | usageQuery (provider : String)
  | rotate (provider : String)
  | healthCheck
deriving DecidableEq, Repr

/-- One request served at the clock reading `now`. -/
def serve (env : Env) (s : State) (req : Request) (now : Nat) : Response × State :=
  match req with
  | .getKey p => getCredential env s p now
  | .reportUsage p body => recordUsage s p body
  | .usageQuery p => usageStats s p
  | .rotate p => rotateNow env s p now
  | .healthCheck => (health s, s)

/-- The state after serving a sequence of requests, each at its own clock
reading. -/
def serveAll (env : Env) (s : State) (reqs : List (Request × Nat)) : State :=
  reqs.foldl (fun st r => (serve env st r.1 r.2).2) s

/-- The `lastRotation` field of a provider, when it has a usage record. -/
def stampOf (s : State) (q : String) : Option (Option Nat) :=
  (lookup s.usage q).map (fun u => u.lastRotation)

/-! ## Sample configurations -/

/-- An environment with a zai backup key and nothing else. -/
def envBackup : Env := fun v => if v = "ZAI_BACKUP_KEY" then some "K2" else none

/-- An environment that sets only `GOOGLE_KEY`. -/
def envGoogle : Env := fun v => if v = "GOOGLE_KEY" then some "G1" else none

/-- An environment with an anthropic key and an anthropic backup key. -/
def envAnthropic : Env := fun v =>
  if v = "ANTHROPIC_KEY" then some "A1"
  else if v = "ANTHROPIC_BACKUP_KEY" then some "A2" else none

/-- An environment that sets only `OPENAI_KEY`. -/
def envOpenai : Env := fun v => if v = "OPENAI_KEY" then some "O1" else none

/-- An environment with no variable set. -/
def envEmpty : Env := fun _ => none

/-- Error answers: the 404 and the uncaught exceptions. -/
def Response.isError (r : Response) : Bool :=
  match r with
  | .notFound => true
  | .fault _ => true
  | _ => false

/-- The clock reading used as start-up time in the examples. -/
def t0 : Nat := 1700000000000

/-! ## Auxiliary notions used in the statements -/

/-- The state after a rotation of `zai` at `now` to the key `k`. -/
def rotatedState (s : State) (u : UsageRecord) (k : String) (now : Nat) : State :=
  { keys := assign s.keys "zai" k,
    usage := assign s.usage "zai"
      { count := u.count, lastRotation := some now, resetAt := some (getNextRotation now) } }

/-- The exact sum of the amounts of a sequence of usage reports, a missing
amount counting as zero. -/
def totalOf (calls : List UsageBody) : Int :=
  (calls.map (fun b => b.tokens.getD 0)).sum

/-! ## Facts about tables -/

theorem lookup_assign_self {α : Type} (tbl : List (String × α)) (k : String) (v : α) :
    lookup (assign tbl k v) k = some v := by
  induction tbl with
  | nil => simp [assign, lookup]
  | cons hd rest ih =>
    obtain ⟨k', v'⟩ := hd
    by_cases h : k' = k
    · simp [assign, lookup, h]
    · simp [assign, lookup, h, ih]

theorem lookup_assign_ne {α : Type} (tbl : List (String × α)) (k q : String) (v : α)
    (hq : q ≠ k) : lookup (assign tbl k v) q = lookup tbl q := by
  induction tbl with
  | nil => simp [assign, lookup, Ne.symm hq]
  | cons hd rest ih =>
    obtain ⟨k', v'⟩ := hd
    by_cases h : k' = k
    · subst h
      simp [assign, lookup, Ne.symm hq]
    · by_cases h2 : k' = q
      · subst h2
        simp [assign, lookup, h]
      · simp [assign, lookup, h, h2, ih]

theorem assign_assign {α : Type} (tbl : List (String × α)) (k : String) (v w : α) :
    assign (assign tbl k v) k w = assign tbl k w := by
  induction tbl with
  | nil => simp [assign]
  | cons hd rest ih =>
    obtain ⟨k', v'⟩ := hd
    by_cases h : k' = k
    · simp [assign, h]
    · simp [assign, h, ih]

theorem backupVar_zai : backupVar "zai" = "ZAI_BACKUP_KEY" := by decide

/-! ## Facts about `rotateKey` -/

theorem shouldRotate_other (s : State) (p : String) (now : Nat) (hp : p ≠ "zai") :
    shouldRotate s p now = .ok false := by
  simp [shouldRotate, hp]

theorem shouldRotate_zai (s : State) (u : UsageRecord) (now : Nat)
    (hu : lookup s.usage "zai" = some u) :
    shouldRotate s "zai" now
      = .ok (match u.resetAt with
             | some d => decide (d ≤ now)
             | none => false) := by
  simp only [shouldRotate, hu, if_true]
  cases u.resetAt <;> rfl

/-- When the provider is not due, `rotateKey` reads the key and writes nothing. -/
theorem rotateKey_not_due (env : Env) (s : State) (p : String) (now : Nat)
    (h : shouldRotate s p now = .ok false) :
    rotateKey env s p now = (.ok (lookup s.keys p), s) := by
  simp [rotateKey, h]

/-- When no backup is configured, `rotateKey` reads the key and writes nothing. -/
theorem rotateKey_no_backup (env : Env) (s : State) (p : String) (now : Nat) (b : Bool)
    (h : shouldRotate s p now = .ok b) (hb : truthy (env (backupVar p)) = false) :
    rotateKey env s p now = (.ok (lookup s.keys p), s) := by
  cases b <;> simp [rotateKey, h, hb]

/-- When `zai` is due and a backup is configured, `rotateKey` swaps it in. -/
theorem rotateKey_due (env : Env) (s : State) (u : UsageRecord) (d now : Nat) (k : String)
    (hu : lookup s.usage "zai" = some u) (hd : u.resetAt = some d) (hdue : d ≤ now)
    (hb : env "ZAI_BACKUP_KEY" = some k) (hk : k ≠ "") :
    rotateKey env s "zai" now = (.ok (some k), rotatedState s u k now) := by
  have hs : shouldRotate s "zai" now = .ok true := by
    rw [shouldRotate_zai s u now hu, hd]
    simp [hdue]
  simp [rotateKey, hs, backupVar_zai, hb, truthy, hk, modifyUsage, hu, lookup_assign_self,
    assign_assign, rotatedState]

theorem lookup_rotatedState_keys (s : State) (u : UsageRecord) (k : String) (now : Nat) :
    lookup (rotatedState s u k now).keys "zai" = some k := by
  simp [rotatedState, lookup_assign_self]

theorem lookup_rotatedState_usage (s : State) (u : UsageRecord) (k : String) (now : Nat) :
    lookup (rotatedState s u k now).usage "zai"
      = some { count := u.count, lastRotation := some now,
               resetAt := some (getNextRotation now) } := by
  simp [rotatedState, lookup_assign_self]

/-! ## Facts about `getCredential` -/

/-- The payload built by `GET /keys/:provider` once `rotateKey` has returned. -/
theorem getCredential_of_rotateKey (env : Env) (s s' : State) (p : String) (now : Nat)
    (key : Option String) (hkey : truthy (lookup s.keys p) = true)
    (hr : rotateKey env s p now = (.ok key, s')) :
    getCredential env s p now
      = match lookup s'.usage p with
        | none => (.fault .typeError, s')
        | some u =>
          match u.lastRotation with
          | none => (.fault .rangeError, s')
          | some last => (.credential p key last u.resetAt, s') := by
  simp only [getCredential, hkey, if_true, hr]

/-- When `rotateKey` leaves the state alone, so does `GET /keys/:provider`. -/
theorem getCredential_state_of_noop (env : Env) (s : State) (p : String) (now : Nat)
    (r : Except Fault (Option String)) (hr : rotateKey env s p now = (r, s)) :
    (getCredential env s p now).2 = s := by
  unfold getCredential
  split
  · rw [hr]
    cases r with
    | error f => rfl
    | ok key =>
      simp only
      split
      · rfl
      · split <;> rfl
  · rfl

/-- A provider that is due is `zai`, with a stored deadline that has passed. -/
theorem shouldRotate_true_inv (s : State) (p : String) (now : Nat)
    (h : shouldRotate s p now = .ok true) :
    p = "zai" ∧ ∃ u d, lookup s.usage "zai" = some u ∧ u.resetAt = some d ∧ d ≤ now := by
  by_cases hp : p = "zai"
  · subst hp
    refine ⟨rfl, ?_⟩
    cases hu : lookup s.usage "zai" with
    | none => simp [shouldRotate, hu] at h
    | some u =>
      rw [shouldRotate_zai s u now hu] at h
      cases hd : u.resetAt with
      | none => simp [hd] at h
      | some d =>
        refine ⟨u, d, rfl, hd, ?_⟩
        simpa [hd] using h
  · simp [shouldRotate, hp] at h

/-- A truthy optional string is a non-empty string. -/
theorem truthy_inv (v : Option String) (h : truthy v = true) : ∃ k, v = some k ∧ k ≠ "" := by
  cases v with
  | none => simp [truthy] at h
  | some k => exact ⟨k, rfl, by simpa [truthy] using h⟩

/-- The whole result of `GET /keys/zai` when `zai` is due and has a backup. -/
theorem getCredential_due (env : Env) (s : State) (u : UsageRecord)
    (k2 : String) (d now : Nat)
    (hkey : truthy (lookup s.keys "zai") = true)
    (hb : env "ZAI_BACKUP_KEY" = some k2) (hk2 : k2 ≠ "")
    (hu : lookup s.usage "zai" = some u) (hd : u.resetAt = some d) (hdue : d ≤ now) :
    getCredential env s "zai" now
      = (.credential "zai" (some k2) now (some (getNextRotation now)),
          rotatedState s u k2 now) := by
  have hr := rotateKey_due env s u d now k2 hu hd hdue hb hk2
  have hg := getCredential_of_rotateKey env s _ "zai" now _ hkey hr
  rw [lookup_rotatedState_usage] at hg
  exact hg

/-- Right after a rotation at `now`, `GET /keys/zai` at `now` repeats the
payload and writes nothing. -/
theorem getCredential_after_rotation (env : Env) (s : State) (u : UsageRecord)
    (k : String) (now : Nat) (hk : k ≠ "") :
    getCredential env (rotatedState s u k now) "zai" now
      = (.credential "zai" (some k) now (some (getNextRotation now)),
          rotatedState s u k now) := by
  have hsr : shouldRotate (rotatedState s u k now) "zai" now = .ok false := by
    rw [shouldRotate_zai _ _ now (lookup_rotatedState_usage s u k now)]
    simp [getNextRotation]
  have hr := rotateKey_not_due env _ "zai" now hsr
  have ht : truthy (lookup (rotatedState s u k now).keys "zai") = true := by
    simp [lookup_rotatedState_keys, truthy, hk]
  have hg := getCredential_of_rotateKey env _ _ "zai" now _ ht hr
  rw [lookup_rotatedState_usage, lookup_rotatedState_keys] at hg
  exact hg

/-- Without a rotation, `GET /keys/:provider` writes nothing, and answers with
the stored key whenever the usage record carries a `lastRotation`. -/
theorem getCredential_without_rotation (env : Env) (s : State) (p : String) (now : Nat)
    (b : Bool) (hs : shouldRotate s p now = .ok b)
    (hno : b = false ∨ truthy (env (backupVar p)) = false) :
    (getCredential env s p now).2 = s
      ∧ ∀ u last, truthy (lookup s.keys p) = true → lookup s.usage p = some u →
          u.lastRotation = some last →
          (getCredential env s p now).1 = .credential p (lookup s.keys p) last u.resetAt := by
  have hr : rotateKey env s p now = (.ok (lookup s.keys p), s) := by
    rcases hno with h | h
    · subst h
      exact rotateKey_not_due env s p now hs
    · exact rotateKey_no_backup env s p now b hs h
  refine ⟨getCredential_state_of_noop env s p now _ hr, ?_⟩
  intro u last hkey hu hl
  rw [getCredential_of_rotateKey env s s p now _ hkey hr]
  simp [hu, hl]

/-! ## Rotation on read (C1) and the deadline (C6) -/

/-- C1. Rotation on read: when `zai` holds the non-empty key `k1`, the backup
`k2` is non-empty and the stored deadline `d` has been reached (`d ≤ now`),
`GET /keys/zai` answers with `k2`, last rotation `now` and next deadline
`now + 18000000` ms; afterwards the active key is `k2`, `lastRotation` is
`now` and `resetAt` is `now + 18000000`, and no other provider is touched. -/
theorem getCredential_rotates_when_due (env : Env) (s : State) (u : UsageRecord)
    (k1 k2 : String) (d now : Nat)
    (hkey : lookup s.keys "zai" = some k1) (hk1 : k1 ≠ "")
    (hb : env "ZAI_BACKUP_KEY" = some k2) (hk2 : k2 ≠ "")
    (hu : lookup s.usage "zai" = some u) (hd : u.resetAt = some d) (hdue : d ≤ now) :
    (getCredential env s "zai" now).1
        = .credential "zai" (some k2) now (some (now + 18000000))
      ∧ lookup (getCredential env s "zai" now).2.keys "zai" = some k2
      ∧ lookup (getCredential env s "zai" now).2.usage "zai"
        = some { count := u.count, lastRotation := some now,
                 resetAt := some (now + 18000000) }
      ∧ ∀ q, q ≠ "zai" →
          lookup (getCredential env s "zai" now).2.keys q = lookup s.keys q
          ∧ lookup (getCredential env s "zai" now).2.usage q = lookup s.usage q := by
  have ht : truthy (lookup s.keys "zai") = true := by simp [hkey, truthy, hk1]
  rw [getCredential_due env s u k2 d now ht hb hk2 hu hd hdue]
  refine ⟨rfl, lookup_rotatedState_keys s u k2 now, ?_, ?_⟩
  · simp [lookup_rotatedState_usage, getNextRotation]
  · intro q hq
    simp [rotatedState, lookup_assign_ne _ _ _ _ hq]

/-- C1 at the scenario of the specification: a deadline of `t0 + 5h` and a
read one second later. -/
theorem getCredential_rotates_when_due_witness :
    (getCredential envBackup (initState envBackup "K1" t0) "zai" (t0 + 18001000)).1
      = .credential "zai" (some "K2") (t0 + 18001000) (some (t0 + 36001000)) :=
  (getCredential_rotates_when_due envBackup (initState envBackup "K1" t0)
    { count := .fin 0, lastRotation := some t0, resetAt := some (t0 + 18000000) }
    "K1" "K2" (t0 + 18000000) (t0 + 18001000)
    (by decide) (by decide) (by decide) (by decide) (by decide) rfl (by decide)).1

/-- C6. For `zai` with stored deadline `d`, `shouldRotate` at `now` is true
exactly when `d ≤ now`; in the state left by a successful rotation at `now` it
is false at `now`, and at any time `t` it is true exactly when
`now + 18000000 ≤ t`. -/
theorem shouldRotate_exactly_at_deadline (env : Env) (s : State) (u : UsageRecord)
    (d now : Nat) (k : String)
    (hu : lookup s.usage "zai" = some u) (hd : u.resetAt = some d) :
    shouldRotate s "zai" now = .ok (decide (d ≤ now))
      ∧ (d ≤ now → env "ZAI_BACKUP_KEY" = some k → k ≠ "" →
          lookup (rotateKey env s "zai" now).2.keys "zai" = some k
          ∧ shouldRotate (rotateKey env s "zai" now).2 "zai" now = .ok false
          ∧ ∀ t, shouldRotate (rotateKey env s "zai" now).2 "zai" t
              = .ok (decide (now + 18000000 ≤ t))) := by
  constructor
  · rw [shouldRotate_zai s u now hu, hd]
  · intro hdue hb hk
    rw [rotateKey_due env s u d now k hu hd hdue hb hk]
    have hsr : ∀ t, shouldRotate (rotatedState s u k now) "zai" t
        = .ok (decide (now + 18000000 ≤ t)) := by
      intro t
      rw [shouldRotate_zai _ _ t (lookup_rotatedState_usage s u k now)]
      simp [getNextRotation]
    refine ⟨lookup_rotatedState_keys s u k now, ?_, hsr⟩
    rw [hsr now]
    simp

/-- C6 at a concrete state: start-up at `t0`, rotation one second after the
first deadline. -/
theorem shouldRotate_exactly_at_deadline_witness :
    shouldRotate (initState envBackup "K1" t0) "zai" (t0 + 18001000) = .ok true
      ∧ shouldRotate (rotateKey envBackup (initState envBackup "K1" t0) "zai"
          (t0 + 18001000)).2 "zai" (t0 + 18001000) = .ok false
      ∧ shouldRotate (rotateKey envBackup (initState envBackup "K1" t0) "zai"
          (t0 + 18001000)).2 "zai" (t0 + 36000999) = .ok false
      ∧ shouldRotate (rotateKey envBackup (initState envBackup "K1" t0) "zai"
          (t0 + 18001000)).2 "zai" (t0 + 36001000) = .ok true :=
  have h := shouldRotate_exactly_at_deadline envBackup (initState envBackup "K1" t0)
    { count := .fin 0, lastRotation := some t0, resetAt := some (t0 + 18000000) }
    (t0 + 18000000) (t0 + 18001000) "K2" (by decide) rfl
  have h2 := h.2 (by decide) (by decide) (by decide)
  ⟨h.1, h2.2.1, h2.2.2 (t0 + 36000999), h2.2.2 (t0 + 36001000)⟩

/-! ## Idempotence of the read (C7) -/

/-- C7. Idempotence of `GET /keys/:provider`: for every state, every provider
with a non-empty active key and every clock reading, a second call at the same
clock reading sends the same response as the first (hence the same key) and
leaves the state produced by the first call unchanged, whether or not the
first call rotated. -/
theorem getCredential_idempotent (env : Env) (s : State) (p k : String) (now : Nat)
    (hkey : lookup s.keys p = some k) (hk : k ≠ "") :
    (getCredential env (getCredential env s p now).2 p now).1
        = (getCredential env s p now).1
      ∧ (getCredential env (getCredential env s p now).2 p now).2
        = (getCredential env s p now).2 := by
  have ht : truthy (lookup s.keys p) = true := by simp [hkey, truthy, hk]
  have fixed : (getCredential env s p now).2 = s →
      (getCredential env (getCredential env s p now).2 p now).1
          = (getCredential env s p now).1
        ∧ (getCredential env (getCredential env s p now).2 p now).2
          = (getCredential env s p now).2 := by
    intro h
    rw [h]
    exact ⟨rfl, h⟩
  cases hs : shouldRotate s p now with
  | error f =>
    apply fixed
    apply getCredential_state_of_noop env s p now (.error f)
    simp [rotateKey, hs]
  | ok b =>
    cases b with
    | false => exact fixed (getCredential_without_rotation env s p now false hs (Or.inl rfl)).1
    | true =>
      cases hb : truthy (env (backupVar p)) with
      | false =>
        exact fixed (getCredential_without_rotation env s p now true hs (Or.inr hb)).1
      | true =>
        obtain ⟨hp, u, d, hu, hd, hdue⟩ := shouldRotate_true_inv s p now hs
        subst hp
        obtain ⟨k2, hk2, hne⟩ := truthy_inv _ hb
        rw [backupVar_zai] at hk2
        rw [getCredential_due env s u k2 d now ht hk2 hne hu hd hdue]
        simp only
        rw [getCredential_after_rotation env s u k2 now hne]
        exact ⟨rfl, rfl⟩

/-- C7 at a call that rotates: start-up at `t0`, two reads one second after
the first deadline. -/
theorem getCredential_idempotent_witness :
    (getCredential envBackup
        (getCredential envBackup (initState envBackup "K1" t0) "zai" (t0 + 18001000)).2
        "zai" (t0 + 18001000)).1
      = (getCredential envBackup (initState envBackup "K1" t0) "zai" (t0 + 18001000)).1
    ∧ (getCredential envBackup (initState envBackup "K1" t0) "zai" (t0 + 18001000)).1
      = .credential "zai" (some "K2") (t0 + 18001000) (some (t0 + 36001000)) :=
  ⟨(getCredential_idempotent envBackup (initState envBackup "K1" t0) "zai" "K1"
      (t0 + 18001000) (by decide) (by decide)).1, by decide⟩

/-! ## What a run can change for a provider other than `zai` -/

/-- Either `rotateKey` writes nothing, or it rotates `zai`. -/
theorem rotateKey_cases (env : Env) (s : State) (p : String) (now : Nat) :
    (rotateKey env s p now).2 = s
      ∨ ∃ u k, (rotateKey env s p now).2 = rotatedState s u k now := by
  cases hs : shouldRotate s p now with
  | error f => exact Or.inl (by simp [rotateKey, hs])
  | ok b =>
    cases b with
    | false => exact Or.inl (by rw [rotateKey_not_due env s p now hs])
    | true =>
      cases hb : truthy (env (backupVar p)) with
      | false => exact Or.inl (by rw [rotateKey_no_backup env s p now true hs hb])
      | true =>
        obtain ⟨hp, u, d, hu, hd, hdue⟩ := shouldRotate_true_inv s p now hs
        subst hp
        obtain ⟨k2, hk2, hne⟩ := truthy_inv _ hb
        rw [backupVar_zai] at hk2
        exact Or.inr ⟨u, k2, by rw [rotateKey_due env s u d now k2 hu hd hdue hk2 hne]⟩

theorem rotateKey_frame (env : Env) (s : State) (p q : String) (now : Nat)
    (hq : q ≠ "zai") :
    lookup (rotateKey env s p now).2.keys q = lookup s.keys q
      ∧ lookup (rotateKey env s p now).2.usage q = lookup s.usage q := by
  rcases rotateKey_cases env s p now with h | ⟨u, k, h⟩
  · rw [h]
    exact ⟨rfl, rfl⟩
  · rw [h]
    simp [rotatedState, lookup_assign_ne _ _ _ _ hq]

theorem getCredential_state (env : Env) (s : State) (p : String) (now : Nat) :
    (getCredential env s p now).2 = s
      ∨ (getCredential env s p now).2 = (rotateKey env s p now).2 := by
  unfold getCredential
  split
  · right
    rcases rotateKey env s p now with ⟨r, s'⟩
    cases r with
    | error f => rfl
    | ok key =>
      simp only
      split
      · rfl
      · split <;> rfl
  · exact Or.inl rfl

theorem rotateNow_state (env : Env) (s : State) (p : String) (now : Nat) :
    (rotateNow env s p now).2 = (rotateKey env s p now).2 := by
  unfold rotateNow
  rcases rotateKey env s p now with ⟨r, s'⟩
  cases r with
  | error f => rfl
  | ok key => cases key <;> rfl

theorem recordUsage_frame (s : State) (p q : String) (body : UsageBody) :
    (recordUsage s p body).2.keys = s.keys
      ∧ stampOf (recordUsage s p body).2 q = stampOf s q := by
  cases hu : lookup s.usage p with
  | none => simp [recordUsage, hu]
  | some u =>
    have he : (recordUsage s p body).2
        = { s with
            usage := assign s.usage p { u with count := u.count + tokensOrZero body.tokens } }
        := by
      simp [recordUsage, hu]
    rw [he]
    refine ⟨rfl, ?_⟩
    by_cases hq : q = p
    · subst hq
      simp [stampOf, lookup_assign_self, hu]
    · simp [stampOf, lookup_assign_ne _ _ _ _ hq]

/-- No request changes the key or the `lastRotation` field of a provider other
than `zai`. -/
theorem serve_frame (env : Env) (s : State) (req : Request) (now : Nat) (q : String)
    (hq : q ≠ "zai") :
    lookup (serve env s req now).2.keys q = lookup s.keys q
      ∧ stampOf (serve env s req now).2 q = stampOf s q := by
  cases req with
  | getKey p =>
    rcases getCredential_state env s p now with h | h
    · simp only [serve, h, and_self]
    · simp only [serve, h, stampOf, rotateKey_frame env s p q now hq, and_self]
  | reportUsage p body =>
    have h := recordUsage_frame s p q body
    simp only [serve, h.1, h.2, and_self]
  | usageQuery p =>
    have h : (usageStats s p).2 = s := by
      unfold usageStats
      split
      · rfl
      · split <;> rfl
    simp only [serve, h, and_self]
  | rotate p =>
    simp only [serve, rotateNow_state, stampOf, rotateKey_frame env s p q now hq, and_self]
  | healthCheck => exact ⟨rfl, rfl⟩

theorem serveAll_frame (env : Env) (reqs : List (Request × Nat)) (s : State) (q : String)
    (hq : q ≠ "zai") :
    lookup (serveAll env s reqs).keys q = lookup s.keys q
      ∧ stampOf (serveAll env s reqs) q = stampOf s q := by
  induction reqs generalizing s with
  | nil => exact ⟨rfl, rfl⟩
  | cons r rest ih =>
    have hstep : serveAll env s (r :: rest) = serveAll env (serve env s r.1 r.2).2 rest := rfl
    have h := serve_frame env s r.1 r.2 q hq
    rw [hstep, (ih _).1, (ih _).2, h.1, h.2]
    exact ⟨rfl, rfl⟩

/-! ## Providers whose usage record has no `lastRotation` (C2, C9) -/

/-- A provider other than `zai` with a key but no `lastRotation` makes
`GET /keys/:provider` throw while formatting the date; nothing is written. -/
theorem getCredential_rangeError (env : Env) (s : State) (p : String) (u : UsageRecord)
    (now : Nat) (hp : p ≠ "zai") (hkey : truthy (lookup s.keys p) = true)
    (hu : lookup s.usage p = some u) (hl : u.lastRotation = none) :
    getCredential env s p now = (.fault .rangeError, s) := by
  have hr := rotateKey_not_due env s p now (shouldRotate_other s p now hp)
  rw [getCredential_of_rotateKey env s s p now _ hkey hr]
  simp [hu, hl]

/-- When `GOOGLE_KEY` or `OPENAI_KEY` is set at start-up, the read of that
provider throws in the initial state and after every run of requests. -/
theorem getCredential_rangeError_reachable (env : Env) (fallback p key : String)
    (start now : Nat) (reqs : List (Request × Nat))
    (hp : p = "google" ∨ p = "openai")
    (hkey : lookup (initState env fallback start).keys p = some key) (hne : key ≠ "") :
    (getCredential env (serveAll env (initState env fallback start) reqs) p now).1
      = .fault .rangeError := by
  have hq : p ≠ "zai" := by
    rcases hp with h | h <;> subst h <;> decide
  have hf := serveAll_frame env reqs (initState env fallback start) p hq
  have hstamp : stampOf (initState env fallback start) p = some none := by
    rcases hp with h | h <;> subst h <;> rfl
  rw [hstamp] at hf
  obtain ⟨hk, hs⟩ := hf
  cases hu : lookup (serveAll env (initState env fallback start) reqs).usage p with
  | none => simp [stampOf, hu] at hs
  | some u =>
    have hl : u.lastRotation = none := by simpa [stampOf, hu] using hs
    have ht : truthy (lookup (serveAll env (initState env fallback start) reqs).keys p)
        = true := by
      simp [hk, hkey, truthy, hne]
    rw [getCredential_rangeError env _ p u now hq ht hu hl]

/-- C2 at its failing input. With `GOOGLE_KEY` set, `google` has the non-empty
key `G1` and is not due, yet `GET /keys/google` answers with a `RangeError`
instead of `G1`; the state is unchanged. -/
theorem getCredential_not_due_google_faults :
    lookup (initState envGoogle "K1" t0).keys "google" = some "G1"
      ∧ shouldRotate (initState envGoogle "K1" t0) "google" (t0 + 1000) = .ok false
      ∧ getCredential envGoogle (initState envGoogle "K1" t0) "google" (t0 + 1000)
        = (.fault .rangeError, initState envGoogle "K1" t0) :=
  ⟨by decide, rfl, by decide⟩

/-- C9 at its failing inputs. In the initial state, `GET /keys/google` with
`GOOGLE_KEY` set and `GET /keys/openai` with `OPENAI_KEY` set both throw a
`RangeError`: their usage records have no `lastRotation`. The same read of
`zai` succeeds. -/
theorem getCredential_initial_faults :
    (getCredential envGoogle (initState envGoogle "K1" t0) "google" t0).1
        = .fault .rangeError
      ∧ (getCredential envOpenai (initState envOpenai "K1" t0) "openai" t0).1
        = .fault .rangeError
      ∧ (getCredential envGoogle (initState envGoogle "K1" t0) "zai" t0).1
        = .credential "zai" (some "K1") t0 (some (t0 + 18000000)) := by
  decide

/-! ## Unknown providers (C4) -/

/-- The guarded handlers answer 404 for a provider that is in neither table
and write nothing. -/
theorem unknown_provider_guarded (env : Env) (s : State) (p : String) (now : Nat)
    (body : UsageBody) (hk : lookup s.keys p = none) (hu : lookup s.usage p = none) :
    getCredential env s p now = (.notFound, s)
      ∧ recordUsage s p body = (.notFound, s)
      ∧ usageStats s p = (.notFound, s)
      ∧ rotateNowApi env s p now = (.notFound, s) := by
  simp [getCredential, recordUsage, usageStats, rotateNowApi, hk, hu, truthy]

/-- The unguarded `rotate` handler throws for a provider outside `keys`. -/
theorem rotateNow_unknown_faults (env : Env) (s : State) (p : String) (now : Nat)
    (hp : p ≠ "zai") (hk : lookup s.keys p = none) :
    rotateNow env s p now = (.fault .typeError, s) := by
  simp [rotateNow, rotateKey_not_due env s p now (shouldRotate_other s p now hp), hk]

/-- C4 at its failing input. `POST /keys/unknown/rotate` on `src/index.js`
throws a `TypeError` instead of answering 404, while the same request on
`src/api/index.js`, and the other three operations, answer 404; none of them
writes to the state. -/
theorem rotateNow_unknown_provider_faults :
    rotateNow envEmpty (initState envEmpty "K1" t0) "unknown" t0
        = (.fault .typeError, initState envEmpty "K1" t0)
      ∧ rotateNowApi envEmpty (initState envEmpty "K1" t0) "unknown" t0
        = (.notFound, initState envEmpty "K1" t0)
      ∧ getCredential envEmpty (initState envEmpty "K1" t0) "unknown" t0
        = (.notFound, initState envEmpty "K1" t0)
      ∧ recordUsage (initState envEmpty "K1" t0) "unknown" { tokens := some 100, droplet := none }
        = (.notFound, initState envEmpty "K1" t0)
      ∧ usageStats (initState envEmpty "K1" t0) "unknown"
        = (.notFound, initState envEmpty "K1" t0) := by
  decide

/-! ## Usage accounting (C5, C8) -/

theorem assign_of_lookup {α : Type} (tbl : List (String × α)) (k : String) (v : α)
    (h : lookup tbl k = some v) : assign tbl k v = tbl := by
  induction tbl with
  | nil => simp [lookup] at h
  | cons hd rest ih =>
    obtain ⟨k', v'⟩ := hd
    by_cases hk : k' = k
    · simp [lookup, hk] at h
      simp [assign, hk, h]
    · simp [lookup, hk] at h
      simp [assign, hk, ih h]

theorem roundMagnitude_exact (m : Nat) (h : m ≤ 2 ^ 53) : roundMagnitude m = m := by
  rcases Nat.lt_or_ge m (2 ^ 53) with h1 | h1
  · unfold roundMagnitude
    rw [if_pos h1]
  · have hm : m = 2 ^ 53 := by omega
    subst hm
    decide

/-- Integers of magnitude at most `2 ^ 53` are doubles. -/
theorem toDouble_exact (n : Int) (hlo : -(2 ^ 53) ≤ n) (hhi : n ≤ 2 ^ 53) :
    toDouble n = .fin n := by
  have hm : n.natAbs ≤ 2 ^ 53 := by omega
  have hr := roundMagnitude_exact n.natAbs hm
  unfold toDouble
  simp only [hr]
  have hlt : ¬ (2 ^ 1024 ≤ n.natAbs) := by
    have : (2 : Nat) ^ 53 < 2 ^ 1024 := by norm_num
    omega
  simp only [hlt, if_false]
  split
  · congr 1
    omega
  · congr 1
    omega

theorem fin_add_fin (a b : Int) : JsNum.fin a + JsNum.fin b = toDouble (a + b) := rfl

theorem tokensOrZero_exact (tokens : Option Int)
    (hlo : -(2 ^ 53) ≤ tokens.getD 0) (hhi : tokens.getD 0 ≤ 2 ^ 53) :
    tokensOrZero tokens = .fin (tokens.getD 0) := by
  cases tokens with
  | none => rfl
  | some a =>
    by_cases h : a = 0
    · simp [tokensOrZero, h]
    · simp only [Option.getD_some] at hlo hhi
      simp [tokensOrZero, h, toDouble_exact a hlo hhi]

/-- The result of one usage report for a provider that has a usage record. -/
theorem recordUsage_eq (s : State) (p : String) (u : UsageRecord) (body : UsageBody)
    (hu : lookup s.usage p = some u) :
    recordUsage s p body
      = (.usageRecorded p (u.count + tokensOrZero body.tokens) body.droplet,
          { s with
            usage := assign s.usage p { u with count := u.count + tokensOrZero body.tokens } })
    := by
  simp [recordUsage, hu]

theorem totalOf_cons (b : UsageBody) (rest : List UsageBody) :
    totalOf (b :: rest) = b.tokens.getD 0 + totalOf rest := by
  simp [totalOf]

theorem totalOf_nonneg (calls : List UsageBody)
    (hpos : ∀ b ∈ calls, 0 ≤ b.tokens.getD 0) : 0 ≤ totalOf calls := by
  induction calls with
  | nil => simp [totalOf]
  | cons b rest ih =>
    rw [totalOf_cons]
    have h1 := hpos b (List.mem_cons_self b rest)
    have h2 := ih (fun c hc => hpos c (List.mem_cons_of_mem b hc))
    omega

/-- Closed form of the state after a sequence of usage reports whose exact
running total stays within `2 ^ 53`. -/
theorem recordAll_eq (p : String) (calls : List UsageBody) (s : State) (u : UsageRecord)
    (c : Int) (hu : lookup s.usage p = some u) (hc : u.count = .fin c) (hc0 : 0 ≤ c)
    (hpos : ∀ b ∈ calls, 0 ≤ b.tokens.getD 0) (hsum : c + totalOf calls ≤ 2 ^ 53) :
    recordAll s p calls
      = { s with usage := assign s.usage p { u with count := .fin (c + totalOf calls) } } := by
  induction calls generalizing s u c with
  | nil =>
    have hrec : ({ u with count := .fin (c + totalOf []) } : UsageRecord) = u := by
      cases u
      simp only at hc
      simp [totalOf, hc]
    rw [hrec, assign_of_lookup _ _ _ hu]
    rfl
  | cons b rest ih =>
    have hstep : recordAll s p (b :: rest) = recordAll (recordUsage s p b).2 p rest := rfl
    have hb := hpos b (List.mem_cons_self b rest)
    have hrest : ∀ d ∈ rest, 0 ≤ d.tokens.getD 0 :=
      fun d hd => hpos d (List.mem_cons_of_mem b hd)
    have hnn := totalOf_nonneg rest hrest
    rw [totalOf_cons] at hsum
    have htok := tokensOrZero_exact b.tokens (by omega) (by omega)
    have hadd : u.count + tokensOrZero b.tokens = .fin (c + b.tokens.getD 0) := by
      rw [hc, htok, fin_add_fin, toDouble_exact _ (by omega) (by omega)]
    rw [hstep, recordUsage_eq s p u b hu, hadd]
    rw [ih _ { u with count := .fin (c + b.tokens.getD 0) } (c + b.tokens.getD 0)
      (by simp [lookup_assign_self]) rfl (by omega) hrest (by omega)]
    simp [assign_assign, totalOf_cons, add_assoc]

theorem totalOf_of_amounts (calls : List UsageBody) (amounts : List Int)
    (h : calls.map (fun b => b.tokens) = amounts.map some) : totalOf calls = amounts.sum := by
  have h1 : calls.map (fun b => b.tokens.getD 0)
      = (calls.map (fun b => b.tokens)).map (fun t => t.getD 0) := by
    simp [List.map_map, Function.comp_def]
  have h2 : (amounts.map some).map (fun t => t.getD 0) = amounts := by
    simp [List.map_map, Function.comp_def]
  rw [totalOf, h1, h, h2]

theorem amounts_nonneg (calls : List UsageBody) (amounts : List Int)
    (h : calls.map (fun b => b.tokens) = amounts.map some)
    (hpos : ∀ a ∈ amounts, 0 ≤ a) : ∀ b ∈ calls, 0 ≤ b.tokens.getD 0 := by
  intro b hb
  have hmem : b.tokens ∈ amounts.map some := by
    rw [← h]
    exact List.mem_map_of_mem (fun b => b.tokens) hb
  obtain ⟨a, ha, hab⟩ := List.mem_map.mp hmem
  rw [← hab]
  exact hpos a ha

theorem totalOf_perm (calls calls' : List UsageBody) (h : calls'.Perm calls) :
    totalOf calls' = totalOf calls :=
  (h.map _).sum_eq

theorem lookup_assign {α : Type} (tbl : List (String × α)) (k q : String) (v : α) :
    lookup (assign tbl k v) q = if q = k then some v else lookup tbl q := by
  by_cases h : q = k
  · subst h
    simp [lookup_assign_self]
  · simp [h, lookup_assign_ne _ _ _ _ h]

/-- C5, as the code has it. A usage report for a provider with a usage record
adds the reported amount itself (zero when it is missing) to the count and
returns the new total; keys and other providers are untouched. The sum is
exact when the amount and the new total have magnitude at most `2 ^ 53`. For
a non-negative amount it is then the old count plus `max amount 0` and the
count does not decrease; a negative amount is accepted and lowers the
count. -/
theorem recordUsage_adds_reported_amount (s : State) (p : String) (u : UsageRecord)
    (old : Int) (tokens : Option Int) (droplet : Option String)
    (hu : lookup s.usage p = some u) (hc : u.count = .fin old)
    (hlo : -(2 ^ 53) ≤ tokens.getD 0) (hhi : tokens.getD 0 ≤ 2 ^ 53)
    (hslo : -(2 ^ 53) ≤ old + tokens.getD 0) (hshi : old + tokens.getD 0 ≤ 2 ^ 53) :
    (recordUsage s p { tokens := tokens, droplet := droplet }).1
        = .usageRecorded p (.fin (old + tokens.getD 0)) droplet
      ∧ lookup (recordUsage s p { tokens := tokens, droplet := droplet }).2.usage p
        = some { u with count := .fin (old + tokens.getD 0) }
      ∧ (recordUsage s p { tokens := tokens, droplet := droplet }).2.keys = s.keys
      ∧ (∀ q, q ≠ p →
          lookup (recordUsage s p { tokens := tokens, droplet := droplet }).2.usage q
            = lookup s.usage q)
      ∧ (0 ≤ tokens.getD 0 →
          old + tokens.getD 0 = old + max (tokens.getD 0) 0
          ∧ old ≤ old + tokens.getD 0)
      ∧ (tokens.getD 0 < 0 → old + tokens.getD 0 < old) := by
  have hadd : u.count + tokensOrZero tokens = .fin (old + tokens.getD 0) := by
    rw [hc, tokensOrZero_exact tokens hlo hhi, fin_add_fin, toDouble_exact _ hslo hshi]
  rw [recordUsage_eq s p u _ hu, hadd]
  refine ⟨rfl, by simp [lookup_assign_self], rfl, ?_, ?_, ?_⟩
  · intro q hq
    simp [lookup_assign_ne _ _ _ _ hq]
  · intro h
    exact ⟨by rw [max_eq_left h], by omega⟩
  · intro h
    omega

/-- C5, amended, at two reports on `zai` after start-up: 1500 tokens, and a
report without a `tokens` field. -/
theorem recordUsage_adds_reported_amount_witness :
    (recordUsage (initState envEmpty "K1" t0) "zai"
        { tokens := some 1500, droplet := some "d1" }).1
        = .usageRecorded "zai" (.fin 1500) (some "d1")
      ∧ (recordUsage (initState envEmpty "K1" t0) "zai"
          { tokens := none, droplet := none }).1
        = .usageRecorded "zai" (.fin 0) none :=
  ⟨(recordUsage_adds_reported_amount (initState envEmpty "K1" t0) "zai"
      { count := .fin 0, lastRotation := some t0, resetAt := some (t0 + 18000000) }
      0 (some 1500) (some "d1") (by decide) rfl (by decide) (by decide) (by decide)
      (by decide)).1,
   (recordUsage_adds_reported_amount (initState envEmpty "K1" t0) "zai"
      { count := .fin 0, lastRotation := some t0, resetAt := some (t0 + 18000000) }
      0 none none (by decide) rfl (by decide) (by decide) (by decide) (by decide)).1⟩

/-- C5 as stated fails: after a report of 10 tokens, a report of -5 tokens on
`zai` returns the total 5, not `10 + max (-5) 0`, so the count decreased. -/
theorem recordUsage_negative_amount_counterexample :
    (recordUsage (initState envEmpty "K1" t0) "zai"
        { tokens := some 10, droplet := none }).1 = .usageRecorded "zai" (.fin 10) none
      ∧ (recordUsage
          (recordUsage (initState envEmpty "K1" t0) "zai"
            { tokens := some 10, droplet := none }).2
          "zai" { tokens := some (-5), droplet := none }).1
        = .usageRecorded "zai" (.fin 5) none
      ∧ (5 : Int) ≠ 10 + max (-5) 0
      ∧ (5 : Int) < 10 := by
  decide

/-- C8 as stated fails. The non-negative amounts `2 ^ 53`, 1, 1 sum to
`2 ^ 53 + 2`; reported in that order from a count of 0 they leave the count
`2 ^ 53`, which is also what the last call returns, because each `+ 1` is
rounded away; reported as 1, 1, `2 ^ 53` they leave `2 ^ 53 + 2`. -/
theorem usage_accumulates_counterexample :
    ([9007199254740992, 1, 1] : List Int).sum = 9007199254740994
      ∧ lookup (recordAll (initState envEmpty "K1" t0) "zai"
          [{ tokens := some 9007199254740992, droplet := none },
           { tokens := some 1, droplet := none },
           { tokens := some 1, droplet := none }]).usage "zai"
        = some { count := .fin 9007199254740992, lastRotation := some t0,
                 resetAt := some (t0 + 18000000) }
      ∧ (recordUsage
          (recordAll (initState envEmpty "K1" t0) "zai"
            [{ tokens := some 9007199254740992, droplet := none },
             { tokens := some 1, droplet := none }])
          "zai" { tokens := some 1, droplet := none }).1
        = .usageRecorded "zai" (.fin 9007199254740992) none
      ∧ lookup (recordAll (initState envEmpty "K1" t0) "zai"
          [{ tokens := some 1, droplet := none },
           { tokens := some 1, droplet := none },
           { tokens := some 9007199254740992, droplet := none }]).usage "zai"
        = some { count := .fin 9007199254740994, lastRotation := some t0,
                 resetAt := some (t0 + 18000000) } := by
  decide

/-- C8, as the code has it. Usage accumulation within the exact range of
doubles. Starting from a count of 0 for the configured provider `p`, after the
calls `calls` reporting the non-negative amounts `amounts` whose sum is at
most `2 ^ 53`, the count of `p` is the sum of the amounts; every other usage
record and the keys are unchanged; any reordering of the calls ends in the
same state; the last call returns the sum as `totalUsage`; and `GET /health`
reports the sum for `p` and what it reported before for the other
providers. -/
theorem usage_accumulates (s : State) (p : String) (u z a g o : UsageRecord)
    (calls : List UsageBody) (amounts : List Int)
    (hz : lookup s.usage "zai" = some z) (ha : lookup s.usage "anthropic" = some a)
    (hg : lookup s.usage "google" = some g) (ho : lookup s.usage "openai" = some o)
    (hp : p ∈ ["zai", "anthropic", "google", "openai"])
    (hu : lookup s.usage p = some u) (h0 : u.count = .fin 0)
    (hamt : calls.map (fun b => b.tokens) = amounts.map some)
    (hpos : ∀ x ∈ amounts, 0 ≤ x) (hbound : amounts.sum ≤ 2 ^ 53) :
    lookup (recordAll s p calls).usage p = some { u with count := .fin amounts.sum }
      ∧ (∀ q, q ≠ p → lookup (recordAll s p calls).usage q = lookup s.usage q)
      ∧ (recordAll s p calls).keys = s.keys
      ∧ (∀ calls', calls'.Perm calls → recordAll s p calls' = recordAll s p calls)
      ∧ (∀ front last, calls = front ++ [last] →
          (recordUsage (recordAll s p front) p last).1
            = .usageRecorded p (.fin amounts.sum) last.droplet)
      ∧ ∃ before after,
          health s = .health (s.keys.map Prod.fst) before
          ∧ health (recordAll s p calls) = .health (s.keys.map Prod.fst) after
          ∧ lookup after p = some (.fin amounts.sum)
          ∧ ∀ q, q ≠ p → lookup after q = lookup before q := by
  have hsum := totalOf_of_amounts calls amounts hamt
  have hcalls := amounts_nonneg calls amounts hamt hpos
  have hclosed := recordAll_eq p calls s u 0 hu h0 (le_refl 0) hcalls
    (by rw [hsum, zero_add]; exact hbound)
  rw [zero_add, hsum] at hclosed
  refine ⟨?_, ?_, ?_, ?_, ?_, ?_⟩
  · rw [hclosed]
    simp [lookup_assign_self]
  · intro q hq
    rw [hclosed]
    simp [lookup_assign_ne _ _ _ _ hq]
  · rw [hclosed]
  · intro calls' hperm
    have htot := totalOf_perm calls calls' hperm
    have hcalls' : ∀ b ∈ calls', 0 ≤ b.tokens.getD 0 :=
      fun b hb => hcalls b (hperm.mem_iff.mp hb)
    rw [hclosed, recordAll_eq p calls' s u 0 hu h0 (le_refl 0) hcalls'
      (by rw [htot, hsum, zero_add]; exact hbound), htot, zero_add, hsum]
  · intro front last hcalls_eq
    have hsplit : totalOf calls = totalOf front + last.tokens.getD 0 := by
      rw [hcalls_eq]
      simp [totalOf]
    have hlast : 0 ≤ last.tokens.getD 0 := hcalls last (by rw [hcalls_eq]; simp)
    have hfrontpos : ∀ b ∈ front, 0 ≤ b.tokens.getD 0 :=
      fun b hb => hcalls b (by rw [hcalls_eq]; exact List.mem_append_left _ hb)
    have hfnn := totalOf_nonneg front hfrontpos
    have hfront := recordAll_eq p front s u 0 hu h0 (le_refl 0) hfrontpos (by omega)
    rw [hfront, recordUsage_eq _ p { u with count := .fin (0 + totalOf front) } last
      (by simp [lookup_assign_self])]
    simp only
    rw [tokensOrZero_exact last.tokens (by omega) (by omega), fin_add_fin,
      toDouble_exact _ (by omega) (by omega), zero_add, ← hsplit, hsum]
  · refine ⟨[("zai", z.count), ("anthropic", a.count), ("google", g.count),
        ("openai", o.count)],
      assign [("zai", z.count), ("anthropic", a.count), ("google", g.count),
        ("openai", o.count)] p (.fin amounts.sum), ?_, ?_, lookup_assign_self _ _ _, ?_⟩
    · simp [health, hz, ha, hg, ho]
    · rw [hclosed]
      simp only [List.mem_cons, List.mem_singleton, List.not_mem_nil, or_false] at hp
      rcases hp with h | h | h | h <;> subst h <;>
        simp [health, lookup_assign, hz, ha, hg, ho, assign]
    · intro q hq
      exact lookup_assign_ne _ _ _ _ hq

/-- C8, amended, at the scenario of the specification: 1500 then 500 tokens
reported for one provider after start-up; the count and `GET /health` show
2000. -/
theorem usage_accumulates_witness :
    lookup (recordAll (initState envEmpty "K1" t0) "anthropic"
        [{ tokens := some 1500, droplet := none }, { tokens := some 500, droplet := none }]).usage
        "anthropic"
        = some { count := .fin 2000, lastRotation := some t0, resetAt := none }
      ∧ health (recordAll (initState envEmpty "K1" t0) "anthropic"
          [{ tokens := some 1500, droplet := none }, { tokens := some 500, droplet := none }])
        = .health ["zai", "anthropic", "google", "openai"]
            [("zai", .fin 0), ("anthropic", .fin 2000), ("google", .fin 0),
             ("openai", .fin 0)] :=
  ⟨(usage_accumulates (initState envEmpty "K1" t0) "anthropic"
      { count := .fin 0, lastRotation := some t0, resetAt := none }
      { count := .fin 0, lastRotation := some t0, resetAt := some (t0 + 18000000) }
      { count := .fin 0, lastRotation := some t0, resetAt := none }
      { count := .fin 0, lastRotation := none, resetAt := none }
      { count := .fin 0, lastRotation := none, resetAt := none }
      [{ tokens := some 1500, droplet := none }, { tokens := some 500, droplet := none }]
      [1500, 500]
      (by decide) (by decide) (by decide) (by decide) (by decide) (by decide) rfl rfl
      (by decide) (by decide)).1,
   by decide⟩

/-! ## Manual rotation (C3) -/

theorem shouldRotate_ok (s : State) (p : String) (u : UsageRecord) (now : Nat)
    (hu : lookup s.usage p = some u) : ∃ b, shouldRotate s p now = .ok b := by
  by_cases hp : p = "zai"
  · subst hp
    exact ⟨_, shouldRotate_zai s u now hu⟩
  · exact ⟨false, shouldRotate_other s p now hp⟩

/-- C3 as stated fails. With no backup configured, `POST /keys/zai/rotate`
after the deadline answers with the ordinary success payload for the
unchanged key `K1`, not with an error. -/
theorem rotateNow_no_backup_counterexample :
    envEmpty (backupVar "zai") = none
      ∧ shouldRotate (initState envEmpty "K1" t0) "zai" (t0 + 18001000) = .ok true
      ∧ rotateNow envEmpty (initState envEmpty "K1" t0) "zai" (t0 + 18001000)
        = (.rotated "zai" "K1..." (t0 + 18001000), initState envEmpty "K1" t0)
      ∧ (rotateNow envEmpty (initState envEmpty "K1" t0) "zai" (t0 + 18001000)).1.isError
        = false :=
  ⟨by decide, rfl, by decide, by decide⟩

/-- A manual rotation of a provider that is not due changes nothing and still
answers with the success payload: `anthropic` keeps `A1` although the backup
`A2` is configured. -/
theorem rotateNow_not_due_keeps_key :
    envAnthropic (backupVar "anthropic") = some "A2"
      ∧ rotateNow envAnthropic (initState envAnthropic "K1" t0) "anthropic" (t0 + 1000)
        = (.rotated "anthropic" "A1..." (t0 + 1000), initState envAnthropic "K1" t0) := by
  decide

/-- C3, as the code has it. `POST /keys/:provider/rotate` runs `rotateKey`.
For a provider with a non-empty key and a usage record: with no backup
configured it answers with the success payload for the unchanged key and
writes nothing; for `zai` with the deadline reached and a non-empty backup
`k2`, the active key becomes `k2`, `lastRotation` becomes `now` and `resetAt`
becomes `now + 18000000`. -/
theorem rotateNow_runs_rotateKey (env : Env) (s : State) (p k : String) (u : UsageRecord)
    (now : Nat) (hkey : lookup s.keys p = some k) (_hk : k ≠ "")
    (hu : lookup s.usage p = some u) :
    (truthy (env (backupVar p)) = false →
        rotateNow env s p now = (.rotated p (substring k 0 20 ++ "...") now, s))
      ∧ (∀ d k2, p = "zai" → u.resetAt = some d → d ≤ now →
          env "ZAI_BACKUP_KEY" = some k2 → k2 ≠ "" →
          (rotateNow env s p now).1 = .rotated "zai" (substring k2 0 20 ++ "...") now
          ∧ lookup (rotateNow env s p now).2.keys "zai" = some k2
          ∧ lookup (rotateNow env s p now).2.usage "zai"
            = some { count := u.count, lastRotation := some now,
                     resetAt := some (now + 18000000) }) := by
  constructor
  · intro hb
    obtain ⟨b, hs⟩ := shouldRotate_ok s p u now hu
    simp [rotateNow, rotateKey_no_backup env s p now b hs hb, hkey]
  · intro d k2 hp hd hdue hb hk2
    subst hp
    simp [rotateNow, rotateKey_due env s u d now k2 hu hd hdue hb hk2,
      lookup_rotatedState_keys, lookup_rotatedState_usage, getNextRotation]

/-- C3, amended, at `zai` one second after the first deadline: without a
backup the key `K1` stays, with the backup `K2` it is swapped in. -/
theorem rotateNow_runs_rotateKey_witness :
    rotateNow envEmpty (initState envEmpty "K1" t0) "zai" (t0 + 18001000)
        = (.rotated "zai" "K1..." (t0 + 18001000), initState envEmpty "K1" t0)
      ∧ (rotateNow envBackup (initState envBackup "K1" t0) "zai" (t0 + 18001000)).1
        = .rotated "zai" "K2..." (t0 + 18001000) :=
  ⟨(rotateNow_runs_rotateKey envEmpty (initState envEmpty "K1" t0) "zai" "K1"
      { count := .fin 0, lastRotation := some t0, resetAt := some (t0 + 18000000) }
      (t0 + 18001000) (by decide) (by decide) (by decide)).1 (by decide),
   ((rotateNow_runs_rotateKey envBackup (initState envBackup "K1" t0) "zai" "K1"
      { count := .fin 0, lastRotation := some t0, resetAt := some (t0 + 18000000) }
      (t0 + 18001000) (by decide) (by decide) (by decide)).2
      (t0 + 18000000) "K2" rfl rfl (by decide) (by decide) (by decide)).1⟩

/-! ## Providers with an empty key (C10) -/

/-- The key returned by `rotateKey` is non-empty whenever the stored key was. -/
theorem rotateKey_key_truthy (env : Env) (s s' : State) (p : String) (now : Nat)
    (key : Option String) (ht : truthy (lookup s.keys p) = true)
    (hr : rotateKey env s p now = (.ok key, s')) : truthy key = true := by
  cases hs : shouldRotate s p now with
  | error f => simp [rotateKey, hs] at hr
  | ok b =>
    have noop : rotateKey env s p now = (.ok (lookup s.keys p), s) → truthy key = true := by
      intro h
      rw [h] at hr
      simp only [Prod.mk.injEq, Except.ok.injEq] at hr
      rw [← hr.1]
      exact ht
    cases b with
    | false => exact noop (rotateKey_not_due env s p now hs)
    | true =>
      cases hb : truthy (env (backupVar p)) with
      | false => exact noop (rotateKey_no_backup env s p now true hs hb)
      | true =>
        obtain ⟨hp, u, d, hu, hd, hdue⟩ := shouldRotate_true_inv s p now hs
        subst hp
        obtain ⟨k2, hk2, hne⟩ := truthy_inv _ hb
        rw [backupVar_zai] at hk2
        rw [rotateKey_due env s u d now k2 hu hd hdue hk2 hne] at hr
        simp only [Prod.mk.injEq, Except.ok.injEq] at hr
        rw [← hr.1]
        simp [truthy, hne]

/-- A success payload of `GET /keys/:provider` never carries an empty key. -/
theorem getCredential_key_nonempty (env : Env) (s : State) (p q : String) (now last : Nat)
    (key : Option String) (next : Option Nat)
    (h : (getCredential env s p now).1 = .credential q key last next) :
    ∃ k, key = some k ∧ k ≠ "" := by
  cases ht : truthy (lookup s.keys p) with
  | false => simp [getCredential, ht] at h
  | true =>
    rcases hr : rotateKey env s p now with ⟨r, s'⟩
    cases r with
    | error f => simp [getCredential, ht, hr] at h
    | ok key' =>
      have hk := rotateKey_key_truthy env s s' p now key' ht hr
      rw [getCredential_of_rotateKey env s s' p now key' ht hr] at h
      split at h
      · simp at h
      · split at h
        · simp at h
        · simp only [Response.credential.injEq] at h
          rw [← h.2.1]
          exact truthy_inv key' hk

/-- C10 as stated fails. `anthropic` has an empty key and no backup after a
start-up with an empty environment, yet a usage report for it succeeds and
changes the state. -/
theorem recordUsage_empty_key_counterexample :
    lookup (initState envEmpty "K1" t0).keys "anthropic" = some ""
      ∧ envEmpty (backupVar "anthropic") = none
      ∧ (recordUsage (initState envEmpty "K1" t0) "anthropic"
          { tokens := some 100, droplet := none }).1
          = .usageRecorded "anthropic" (.fin 100) none
      ∧ (recordUsage (initState envEmpty "K1" t0) "anthropic"
          { tokens := some 100, droplet := none }).2 ≠ initState envEmpty "K1" t0 := by
  decide

/-- C10, as the code has it. For a provider whose key is the empty string,
`GET /keys/:provider` answers 404 and writes nothing, while a usage report
still succeeds and adds its amount to the count, since it only looks at the
usage table; and no success payload of `GET /keys/:provider`, for any state
and provider, carries an empty key. -/
theorem empty_key_provider (env : Env) (s : State) (p : String) (now : Nat)
    (hkey : lookup s.keys p = some "") :
    getCredential env s p now = (.notFound, s)
      ∧ (∀ u body, lookup s.usage p = some u →
          (recordUsage s p body).1
            = .usageRecorded p (u.count + tokensOrZero body.tokens) body.droplet
          ∧ lookup (recordUsage s p body).2.usage p
            = some { u with count := u.count + tokensOrZero body.tokens })
      ∧ (∀ env' s' p' now' q key last next,
          (getCredential env' s' p' now').1 = .credential q key last next →
          ∃ k, key = some k ∧ k ≠ "") := by
  refine ⟨by simp [getCredential, hkey, truthy], ?_, ?_⟩
  · intro u body hu
    rw [recordUsage_eq s p u body hu]
    exact ⟨rfl, by simp [lookup_assign_self]⟩
  · intro env' s' p' now' q key last next h
    exact getCredential_key_nonempty env' s' p' q now' last key next h

/-- C10, amended, at `anthropic` after a start-up with an empty environment;
the success payload inspected is the read of `zai`. -/
theorem empty_key_provider_witness :
    getCredential envEmpty (initState envEmpty "K1" t0) "anthropic" t0
        = (.notFound, initState envEmpty "K1" t0)
      ∧ (recordUsage (initState envEmpty "K1" t0) "anthropic"
          { tokens := some 100, droplet := none }).1
          = .usageRecorded "anthropic" (.fin 100) none
      ∧ ∃ k, some "K1" = some k ∧ k ≠ "" :=
  have h := empty_key_provider envEmpty (initState envEmpty "K1" t0) "anthropic" t0
    (by decide)
  ⟨h.1,
   (h.2.1 { count := .fin 0, lastRotation := some t0, resetAt := none }
      { tokens := some 100, droplet := none } (by decide)).1,
   h.2.2 envEmpty (initState envEmpty "K1" t0) "zai" t0 "zai" (some "K1") t0
      (some (t0 + 18000000)) (by decide)⟩

end KeyManager
